import Mathlib

/-!
# Smart Greenhouse firmware — verification of the control-loop spec

Shallow embedding of the ESP32 greenhouse firmware
(`ESP32_Firebase_SmartGreenhouse.ino`, plus the earlier firmware
generation that polls the `manual_control/*` override paths).

Modelling conventions:
* C `float` sensor values are modelled by `FloatV`, a rational number or
  NaN; IEEE comparisons against NaN are false, which `FloatV.geI`
  reproduces.
* The Firebase RTDB is a partial map from path strings to typed scalar
  values (`Remote`).  `Firebase.RTDB.getBool` followed by the firmware's
  `dataType() == "boolean"` check is modelled by `getBool`, which yields
  `some v` exactly when the path holds a boolean; any read failure or
  type mismatch is `none` (skipped, exactly as the firmware skips the
  update).  `getInt` followed by the `"int" || "float"` type check is
  `getNum`; `fbdo.intData()` on a float truncates toward zero
  (`ratTrunc`).
* The firmware's global mutable variables (status flags, cached sensor
  values, thresholds) form the record `DeviceState`; each firmware
  function becomes a function from inputs and state to state, and
  functions whose observable behaviour is the sequence of remote
  writes / delays / restarts additionally return an `Effect` trace.
* `millis()` is a tick parameter `now : ℕ`; a single call of
  `sendToFirebase` is modelled as happening within one tick.
-/

set_option autoImplicit false

namespace Greenhouse

/-- A C `float` value: either NaN or an exact rational. -/
inductive FloatV where
  | nan : FloatV
  | val (q : ℚ) : FloatV
  deriving DecidableEq

/-- `isnan` from the source (`math.h`). -/
def FloatV.isnan : FloatV → Bool
  | .nan => true
  | .val _ => false

/-- The C comparison `f >= (float)n` for `f : float`, `n : int`;
false whenever `f` is NaN (IEEE semantics). -/
def FloatV.geI : FloatV → ℤ → Bool
  | .nan, _ => false
  | .val q, n => decide ((n : ℚ) ≤ q)

/-- A scalar stored in the Firebase RTDB. -/
inductive RVal where
  | b (v : Bool) : RVal
  | i (v : ℤ) : RVal
  | f (v : ℚ) : RVal
  | s (v : String) : RVal
  deriving DecidableEq

/-- The remote store: hierarchical string paths to typed scalars;
`none` is an absent path or an unreachable remote. -/
def Remote : Type := String → Option RVal

/-- `Firebase.RTDB.getBool` + the firmware's `dataType() == "boolean"`
guard: yields the value only when the path holds a boolean. -/
def getBool (r : Remote) (path : String) : Option Bool :=
  match r path with
  | some (.b v) => some v
  | _ => none

/-- C truncation toward zero of a rational, as `fbdo.intData()`
performs on a float payload. -/
def ratTrunc (q : ℚ) : ℤ :=
  Int.tdiv q.num q.den

/-- `Firebase.RTDB.getInt` + the firmware's
`dataType() == "int" || dataType() == "float"` guard: an integer payload
is taken as is, a float payload is truncated by `intData()`. -/
def getNum (r : Remote) (path : String) : Option ℤ :=
  match r path with
  | some (.i v) => some v
  | some (.f q) => some (ratTrunc q)
  | _ => none

/-- The firmware's global mutable state (lines 48–65 of the sketch):
status flags, cached sensor values and the three thresholds.
`light` is the global `int light`, `leds_ON` the light latch. -/
structure DeviceState where
  leds_ON : Bool
  fan_status : Bool
  pump_status : Bool
  light_status : Bool
  automation_enabled : Bool
  reboot_requested : Bool
  temperature : FloatV
  humidity : FloatV
  light : ℤ
  moisture_percentage : ℚ
  temp_thresh : ℤ
  moist_thresh : ℤ
  lum_thresh : ℤ
  deriving DecidableEq

/-- The global initializers: all flags false except
`automation_enabled`, sensors zeroed, thresholds 20/20/31. -/
def initState : DeviceState :=
  { leds_ON := false
    fan_status := false
    pump_status := false
    light_status := false
    automation_enabled := true
    reboot_requested := false
    temperature := .val 0
    humidity := .val 0
    light := 0
    moisture_percentage := 0
    temp_thresh := 31
    moist_thresh := 20
    lum_thresh := 20 }

/-- One sensing cycle's raw inputs: the two DHT reads (possibly NaN)
and the two raw ADC values (0..4095 on the hardware). -/
structure DhtSample where
  newTemp : FloatV
  newHumidity : FloatV
  moistureRaw : ℕ
  lightRaw : ℕ
  deriving DecidableEq

/-- `readSensors()`: a NaN DHT read leaves the cached field untouched;
soil moisture is inverted and normalised to percent
(`100 - raw*100.0/4095`, float arithmetic), light is integer-divided
(`raw*100/4095`). -/
def readSensors (inp : DhtSample) (s : DeviceState) : DeviceState :=
  let s := match inp.newTemp with
    | .nan => s
    | .val q => { s with temperature := .val q }
  let s := match inp.newHumidity with
    | .nan => s
    | .val q => { s with humidity := .val q }
  { s with
    moisture_percentage := 100 - ((inp.moistureRaw : ℚ) * 100 / 4095)
    light := ((inp.lightRaw * 100) / 4095 : ℕ) }

/-- `controlDevices()`: edge-triggered light control guarded by the
`leds_ON` latch, then level-triggered pump and fan control. -/
def controlDevices (s : DeviceState) : DeviceState :=
  let s :=
    if s.light < s.lum_thresh ∧ s.leds_ON = false then
      { s with leds_ON := true, light_status := true }
    else if s.lum_thresh ≤ s.light ∧ s.leds_ON = true then
      { s with leds_ON := false, light_status := false }
    else s
  let s :=
    if s.moisture_percentage < (s.moist_thresh : ℚ) then
      { s with pump_status := true }
    else
      { s with pump_status := false }
  if s.temperature.geI s.temp_thresh then
    { s with fan_status := true }
  else
    { s with fan_status := false }

/-- One candidate block of `checkThresholdUpdates()`: a numeric read
that succeeded, lies in `(0, bound]` and differs from the current value
replaces it; anything else leaves the current value. -/
def applyThresh (bound cur : ℤ) (cand : Option ℤ) : ℤ :=
  match cand with
  | some v => if 0 < v ∧ v ≤ bound ∧ v ≠ cur then v else cur
  | none => cur

/-- `checkThresholdUpdates()`: the three primary-namespace paths
(`settings/*`) are polled first, then the three legacy paths
(`system_thresholds/*`); each candidate is filtered by `applyThresh`.
All six `getInt` calls are issued unconditionally, so the polled-path
trace (second component) is the constant list in source order. -/
def checkThresholdUpdates (r : Remote) (s : DeviceState) :
    DeviceState × List String :=
  let s := { s with temp_thresh := applyThresh 40 s.temp_thresh (getNum r "settings/temp_threshold") }
  let s := { s with moist_thresh := applyThresh 100 s.moist_thresh (getNum r "settings/moisture_threshold") }
  let s := { s with lum_thresh := applyThresh 100 s.lum_thresh (getNum r "settings/light_threshold") }
  let s := { s with temp_thresh := applyThresh 40 s.temp_thresh (getNum r "system_thresholds/temp_thresh") }
  let s := { s with moist_thresh := applyThresh 100 s.moist_thresh (getNum r "system_thresholds/moist_thresh") }
  let s := { s with lum_thresh := applyThresh 100 s.lum_thresh (getNum r "system_thresholds/lum_thresh") }
  (s, ["settings/temp_threshold", "settings/moisture_threshold",
       "settings/light_threshold", "system_thresholds/temp_thresh",
       "system_thresholds/moist_thresh", "system_thresholds/lum_thresh"])

/-- `checkFirebaseCommands()` of the current firmware generation:
refresh `automation_enabled` from `settings/automation`, and when it
ends up false (MANUAL) apply each boolean override found under
`actuator_status/*`; the light override drives both `light_status` and
the `leds_ON` latch. -/
def checkFirebaseCommands (r : Remote) (s : DeviceState) : DeviceState :=
  let s := match getBool r "settings/automation" with
    | some v => { s with automation_enabled := v }
    | none => s
  if s.automation_enabled = false then
    let s := match getBool r "actuator_status/fan" with
      | some v => { s with fan_status := v }
      | none => s
    let s := match getBool r "actuator_status/pump" with
      | some v => { s with pump_status := v }
      | none => s
    match getBool r "actuator_status/light" with
    | some v => { s with light_status := v, leds_ON := v }
    | none => s
  else s

/-- `checkFirebaseCommands()` of the earlier firmware generation
(`src/unnamed/part_000`): identical control flow, but the overrides
live under `manual_control/*`. -/
def checkFirebaseCommandsLegacy (r : Remote) (s : DeviceState) : DeviceState :=
  let s := match getBool r "settings/automation" with
    | some v => { s with automation_enabled := v }
    | none => s
  if s.automation_enabled = false then
    let s := match getBool r "manual_control/fan" with
      | some v => { s with fan_status := v }
      | none => s
    let s := match getBool r "manual_control/pump" with
      | some v => { s with pump_status := v }
      | none => s
    match getBool r "manual_control/light" with
    | some v => { s with light_status := v, leds_ON := v }
    | none => s
  else s

/-- An observable side effect on the remote store or the device:
a typed write, a blocking delay, or the hard restart. -/
inductive Effect where
  | wBool (path : String) (v : Bool) : Effect
  | wInt (path : String) (v : ℤ) : Effect
  | wFloat (path : String) (v : FloatV) : Effect
  | wString (path : String) (v : String) : Effect
  | delayMs (ms : ℕ) : Effect
  | restart : Effect
  deriving DecidableEq

/-- The history key built by `sendToFirebase()`:
`String timestamp = String(millis());`. -/
def historyKey (now : ℕ) : String :=
  toString now

/-- `sendToFirebase()` as its trace of remote writes, in source order;
`now` is the `millis()` tick during the call. -/
def sendToFirebase (now : ℕ) (s : DeviceState) : List Effect :=
  [ .wFloat "sensor_data/temperature" s.temperature,
    .wFloat "sensor_data/humidity" s.humidity,
    .wFloat "sensor_data/soil_moisture" (.val s.moisture_percentage),
    .wInt "sensor_data/lighting" s.light,
    .wBool "sensor_data/fan_status" s.fan_status,
    .wBool "sensor_data/pump_status" s.pump_status,
    .wBool "sensor_data/light_status" s.light_status,
    .wBool "settings/automation" s.automation_enabled,
    .wInt "settings/thresholds/current/temperature" s.temp_thresh,
    .wInt "settings/thresholds/current/moisture" s.moist_thresh,
    .wInt "settings/thresholds/current/light" s.lum_thresh,
    .wString "system/last_update" (toString now),
    .wFloat ("history/" ++ historyKey now ++ "/temperature") s.temperature,
    .wFloat ("history/" ++ historyKey now ++ "/humidity") s.humidity,
    .wFloat ("history/" ++ historyKey now ++ "/soil_moisture")
      (.val s.moisture_percentage),
    .wInt ("history/" ++ historyKey now ++ "/lighting") s.light,
    .wInt ("history/" ++ historyKey now ++ "/timestamp") (now : ℤ) ]

/-- The path of a write effect (none for delays and the restart). -/
def Effect.writePath : Effect → Option String
  | .wBool p _ => some p
  | .wInt p _ => some p
  | .wFloat p _ => some p
  | .wString p _ => some p
  | _ => none

/-- The reboot-request poll fires iff the path holds the boolean
`true` (`dataType() == "boolean" && fbdo.boolData()`). -/
def rebootTrigger (obs : Option RVal) : Bool :=
  match obs with
  | some (.b true) => true
  | _ => false

/-- `checkSystemRebootRequest()` as its effect trace: on an observed
`true`, clear the flag, record the reboot timestamp, wait 1 s for the
writes to flush, then restart; otherwise do nothing. -/
def checkSystemRebootRequest (obs : Option RVal) (now : ℕ) : List Effect :=
  if rebootTrigger obs then
    [ .wBool "system/reboot_request" false,
      .wInt "system/last_reboot" (now : ℤ),
      .delayMs 1000,
      .restart ]
  else []

/-- The reboot coordinator across successive loop cycles: each cycle
contributes its `checkSystemRebootRequest` trace, and `ESP.restart()`
ends execution, so nothing after a restart is processed. -/
def runCoordinator : List (Option RVal × ℕ) → List Effect
  | [] => []
  | (o, t) :: rest =>
    let es := checkSystemRebootRequest o t
    if Effect.restart ∈ es then es else es ++ runCoordinator rest

/-- The inputs consumed by one fast-cadence loop iteration. -/
structure CycleInput where
  dht : DhtSample
  remote : Remote

/-- One fast-cadence iteration of `loop()` (lines 164–174):
`readSensors`, `checkThresholdUpdates`, `checkFirebaseCommands`, then
`controlDevices` only when automation is enabled.  `sendToFirebase`
touches no state, so it does not appear in the state function. -/
def fastCycle (inp : CycleInput) (s : DeviceState) : DeviceState :=
  let s := readSensors inp.dht s
  let s := (checkThresholdUpdates inp.remote s).1
  let s := checkFirebaseCommands inp.remote s
  if s.automation_enabled then controlDevices s else s

/-- The device's state after a sequence of fast-cadence iterations
starting from the boot state. -/
def runCycles (inps : List CycleInput) : DeviceState :=
  List.foldl (fun s i => fastCycle i s) initState inps

/-! ### Concrete fixtures used by the closed witness theorems -/

/-- A completely unreachable remote: every read fails. -/
def remoteDown : Remote := fun _ => none

/-- A remote commanding MANUAL mode with the current-generation
(`actuator_status/*`) boolean overrides set. -/
def remoteManual : Remote := fun p =>
  if p = "settings/automation" then some (.b false)
  else if p = "actuator_status/fan" then some (.b true)
  else if p = "actuator_status/pump" then some (.b false)
  else if p = "actuator_status/light" then some (.b true)
  else none

/-- A remote commanding MANUAL mode with the legacy-generation
(`manual_control/*`) boolean overrides set. -/
def remoteManualLegacy : Remote := fun p =>
  if p = "settings/automation" then some (.b false)
  else if p = "manual_control/fan" then some (.b false)
  else if p = "manual_control/pump" then some (.b true)
  else if p = "manual_control/light" then some (.b true)
  else none

/-- A remote supplying valid, distinct threshold candidates on both
the primary and the legacy namespace for every field. -/
def remoteBothThresh : Remote := fun p =>
  if p = "settings/temp_threshold" then some (.i 35)
  else if p = "system_thresholds/temp_thresh" then some (.i 25)
  else if p = "settings/moisture_threshold" then some (.i 50)
  else if p = "system_thresholds/moist_thresh" then some (.i 60)
  else if p = "settings/light_threshold" then some (.i 10)
  else if p = "system_thresholds/lum_thresh" then some (.i 90)
  else none

/-- Recognises the restart effect in a trace. -/
def isRestart : Effect → Bool
  | .restart => true
  | _ => false

/-- Recognises the clear-write `setBool("system/reboot_request", false)`
in a trace. -/
def isClearWrite : Effect → Bool
  | .wBool p v => p == "system/reboot_request" && v == false
  | _ => false

/-- A DHT cycle where both DHT reads fault (NaN). -/
def sampleNaN : DhtSample :=
  { newTemp := .nan, newHumidity := .nan, moistureRaw := 0, lightRaw := 0 }

/-- A DHT cycle with valid reads. -/
def sampleOk : DhtSample :=
  { newTemp := .val 25, newHumidity := .val 60,
    moistureRaw := 2000, lightRaw := 2000 }

/-- A second device state, distinct from `initState`, used to exhibit
that two different publish calls in one tick share history keys. -/
def altState : DeviceState :=
  { initState with fan_status := true, temperature := .val 33 }

end Greenhouse

namespace Greenhouse

/-! ### C1 / C2 — `controlDevices` -/

/-- The `leds_ON` latch after `controlDevices` follows exactly the two
edge-trigger branches of the source. -/
theorem controlDevices_leds (s : DeviceState) :
    (controlDevices s).leds_ON =
      if s.light < s.lum_thresh ∧ s.leds_ON = false then true
      else if s.lum_thresh ≤ s.light ∧ s.leds_ON = true then false
      else s.leds_ON := by
  unfold controlDevices
  dsimp only
  split_ifs <;> simp_all

/-- `light_status` after `controlDevices` follows the same two
edge-trigger branches. -/
theorem controlDevices_light_stat (s : DeviceState) :
    (controlDevices s).light_status =
      if s.light < s.lum_thresh ∧ s.leds_ON = false then true
      else if s.lum_thresh ≤ s.light ∧ s.leds_ON = true then false
      else s.light_status := by
  unfold controlDevices
  dsimp only
  split_ifs <;> simp_all

/-- `controlDevices` does not modify the cached sensor values or the
thresholds. -/
theorem controlDevices_frame (s : DeviceState) :
    (controlDevices s).light = s.light
    ∧ (controlDevices s).lum_thresh = s.lum_thresh
    ∧ (controlDevices s).temperature = s.temperature
    ∧ (controlDevices s).temp_thresh = s.temp_thresh
    ∧ (controlDevices s).moisture_percentage = s.moisture_percentage
    ∧ (controlDevices s).moist_thresh = s.moist_thresh := by
  unfold controlDevices
  dsimp only
  split_ifs <;> simp_all

/-- C1: in AUTOMATIC mode one `controlDevices` evaluation makes the
fan state exactly `temperature >= temp_thresh` and the pump state
exactly `moisture_percentage < moist_thresh`, for every prior state —
both are level-triggered and recomputed from scratch. -/
theorem fan_pump_level_triggered (s : DeviceState) :
    (controlDevices s).fan_status = s.temperature.geI s.temp_thresh
    ∧ (controlDevices s).pump_status =
        decide (s.moisture_percentage < (s.moist_thresh : ℚ)) := by
  unfold controlDevices
  dsimp only
  split_ifs <;> simp_all

/-- C2: the light actuator is edge-triggered — the latch and the light
state change only on the two threshold-crossing transitions of the
source, and a second `controlDevices` call on the unchanged reading
leaves both the light state and the latch unchanged. -/
theorem light_edge_triggered (s : DeviceState) :
    ((controlDevices s).leds_ON =
      if s.light < s.lum_thresh ∧ s.leds_ON = false then true
      else if s.lum_thresh ≤ s.light ∧ s.leds_ON = true then false
      else s.leds_ON)
    ∧ ((controlDevices s).light_status =
      if s.light < s.lum_thresh ∧ s.leds_ON = false then true
      else if s.lum_thresh ≤ s.light ∧ s.leds_ON = true then false
      else s.light_status)
    ∧ (controlDevices (controlDevices s)).leds_ON = (controlDevices s).leds_ON
    ∧ (controlDevices (controlDevices s)).light_status =
        (controlDevices s).light_status := by
  refine ⟨controlDevices_leds s, controlDevices_light_stat s, ?_, ?_⟩
  · rw [controlDevices_leds (controlDevices s), (controlDevices_frame s).1,
      (controlDevices_frame s).2.1, controlDevices_leds s]
    split_ifs <;> simp_all <;> omega
  · rw [controlDevices_light_stat (controlDevices s), (controlDevices_frame s).1,
      (controlDevices_frame s).2.1, controlDevices_leds s]
    split_ifs <;> simp_all <;> omega

/-! ### C3 / C8 — threshold refresh -/

/-- A failed or type-mismatched read changes nothing. -/
theorem applyThresh_none (b cur : ℤ) : applyThresh b cur none = cur := rfl

/-- If every successful candidate on a channel is invalid or equal to
the current value, the channel leaves the value unchanged. -/
theorem applyThresh_unchanged (b cur : ℤ) (c : Option ℤ)
    (h : ∀ w, c = some w → ¬ (0 < w ∧ w ≤ b) ∨ w = cur) :
    applyThresh b cur c = cur := by
  cases c with
  | none => rfl
  | some w =>
    have hw := h w rfl
    unfold applyThresh
    dsimp only
    split_ifs with hcond
    · rcases hw with hw | hw
      · exact absurd ⟨hcond.1, hcond.2.1⟩ hw
      · exact hw
    · rfl

/-- A valid, strictly-changed candidate replaces the value. -/
theorem applyThresh_accept (b cur v : ℤ)
    (h1 : 0 < v) (h2 : v ≤ b) (h3 : v ≠ cur) :
    applyThresh b cur (some v) = v := by
  unfold applyThresh
  dsimp only
  rw [if_pos ⟨h1, h2, h3⟩]

/-- Primary candidate then legacy candidate, both valid and strictly
changed w.r.t. the starting value: the legacy one wins. -/
theorem applyThresh_legacy_wins (b cur p l : ℤ)
    (hp1 : 0 < p) (hp2 : p ≤ b) (hp3 : p ≠ cur)
    (hl1 : 0 < l) (hl2 : l ≤ b) (_hl3 : l ≠ cur) :
    applyThresh b (applyThresh b cur (some p)) (some l) = l := by
  rw [applyThresh_accept b cur p hp1 hp2 hp3]
  by_cases hlp : l = p
  · subst hlp
    unfold applyThresh
    dsimp only
    split_ifs <;> rfl
  · exact applyThresh_accept b p l hl1 hl2 hlp

/-- The temperature threshold after a refresh is the two-candidate
chain primary-then-legacy. -/
theorem checkThresholdUpdates_temp (r : Remote) (s : DeviceState) :
    (checkThresholdUpdates r s).1.temp_thresh =
      applyThresh 40
        (applyThresh 40 s.temp_thresh (getNum r "settings/temp_threshold"))
        (getNum r "system_thresholds/temp_thresh") := rfl

/-- The moisture threshold after a refresh is the two-candidate chain
primary-then-legacy. -/
theorem checkThresholdUpdates_moist (r : Remote) (s : DeviceState) :
    (checkThresholdUpdates r s).1.moist_thresh =
      applyThresh 100
        (applyThresh 100 s.moist_thresh (getNum r "settings/moisture_threshold"))
        (getNum r "system_thresholds/moist_thresh") := rfl

/-- The light threshold after a refresh is the two-candidate chain
primary-then-legacy. -/
theorem checkThresholdUpdates_lum (r : Remote) (s : DeviceState) :
    (checkThresholdUpdates r s).1.lum_thresh =
      applyThresh 100
        (applyThresh 100 s.lum_thresh (getNum r "settings/light_threshold"))
        (getNum r "system_thresholds/lum_thresh") := rfl

/-- C3: a threshold candidate outside its permitted bound
(temperature in `(0,40]`, moisture and light in `(0,100]`) or equal to
the current value is ignored, and a threshold value is replaced only by
a candidate strictly within its bound and strictly different — both at
the single-candidate level (`applyThresh`, the body of each of the six
read blocks of `checkThresholdUpdates`) and across a whole refresh when
every candidate for a field is invalid-or-equal. -/
theorem threshold_update_guard (cur v : ℤ) (r : Remote) (s : DeviceState) :
    ((¬ (0 < v ∧ v ≤ 40) ∨ v = cur) → applyThresh 40 cur (some v) = cur)
    ∧ ((¬ (0 < v ∧ v ≤ 100) ∨ v = cur) → applyThresh 100 cur (some v) = cur)
    ∧ (applyThresh 40 cur (some v) ≠ cur →
        0 < v ∧ v ≤ 40 ∧ v ≠ cur ∧ applyThresh 40 cur (some v) = v)
    ∧ (applyThresh 100 cur (some v) ≠ cur →
        0 < v ∧ v ≤ 100 ∧ v ≠ cur ∧ applyThresh 100 cur (some v) = v)
    ∧ ((∀ w, getNum r "settings/temp_threshold" = some w →
          ¬ (0 < w ∧ w ≤ 40) ∨ w = s.temp_thresh) →
       (∀ w, getNum r "system_thresholds/temp_thresh" = some w →
          ¬ (0 < w ∧ w ≤ 40) ∨ w = s.temp_thresh) →
       (checkThresholdUpdates r s).1.temp_thresh = s.temp_thresh)
    ∧ ((∀ w, getNum r "settings/moisture_threshold" = some w →
          ¬ (0 < w ∧ w ≤ 100) ∨ w = s.moist_thresh) →
       (∀ w, getNum r "system_thresholds/moist_thresh" = some w →
          ¬ (0 < w ∧ w ≤ 100) ∨ w = s.moist_thresh) →
       (checkThresholdUpdates r s).1.moist_thresh = s.moist_thresh)
    ∧ ((∀ w, getNum r "settings/light_threshold" = some w →
          ¬ (0 < w ∧ w ≤ 100) ∨ w = s.lum_thresh) →
       (∀ w, getNum r "system_thresholds/lum_thresh" = some w →
          ¬ (0 < w ∧ w ≤ 100) ∨ w = s.lum_thresh) →
       (checkThresholdUpdates r s).1.lum_thresh = s.lum_thresh) := by
  refine ⟨?_, ?_, ?_, ?_, ?_, ?_, ?_⟩
  · intro h
    exact applyThresh_unchanged 40 cur (some v) (fun w hw => by
      cases hw; exact h)
  · intro h
    exact applyThresh_unchanged 100 cur (some v) (fun w hw => by
      cases hw; exact h)
  · intro h
    unfold applyThresh at h ⊢
    dsimp only at h ⊢
    split_ifs at h ⊢ with hc
    · exact ⟨hc.1, hc.2.1, hc.2.2, rfl⟩
    · exact absurd rfl h
  · intro h
    unfold applyThresh at h ⊢
    dsimp only at h ⊢
    split_ifs at h ⊢ with hc
    · exact ⟨hc.1, hc.2.1, hc.2.2, rfl⟩
    · exact absurd rfl h
  · intro hp hl
    rw [checkThresholdUpdates_temp,
      applyThresh_unchanged 40 s.temp_thresh _ hp,
      applyThresh_unchanged 40 s.temp_thresh _ hl]
  · intro hp hl
    rw [checkThresholdUpdates_moist,
      applyThresh_unchanged 100 s.moist_thresh _ hp,
      applyThresh_unchanged 100 s.moist_thresh _ hl]
  · intro hp hl
    rw [checkThresholdUpdates_lum,
      applyThresh_unchanged 100 s.lum_thresh _ hp,
      applyThresh_unchanged 100 s.lum_thresh _ hl]

/-- Witness for C3: the out-of-bound candidate 50 (temperature) and
the equal candidate 20 (moisture) are both rejected. -/
theorem threshold_update_guard_witness :
    applyThresh 40 31 (some 50) = 31 ∧ applyThresh 100 20 (some 20) = 20 :=
  ⟨(threshold_update_guard 31 50 remoteDown initState).1 (Or.inl (by decide)),
   (threshold_update_guard 20 20 remoteDown initState).2.1 (Or.inr rfl)⟩

/-- C8: within one refresh the primary (`settings/*`) path of each
field is polled before its legacy (`system_thresholds/*`) path — the
poll trace is the constant source-order list — and when both
namespaces supply valid, strictly-changed candidates for a field in
the same refresh, the field ends up holding the legacy value (last
writer in poll order wins). -/
theorem threshold_poll_order_legacy_wins (r : Remote) (s : DeviceState) :
    ((checkThresholdUpdates r s).2 =
      ["settings/temp_threshold", "settings/moisture_threshold",
       "settings/light_threshold", "system_thresholds/temp_thresh",
       "system_thresholds/moist_thresh", "system_thresholds/lum_thresh"])
    ∧ (∀ p l, getNum r "settings/temp_threshold" = some p →
        0 < p → p ≤ 40 → p ≠ s.temp_thresh →
        getNum r "system_thresholds/temp_thresh" = some l →
        0 < l → l ≤ 40 → l ≠ s.temp_thresh →
        (checkThresholdUpdates r s).1.temp_thresh = l)
    ∧ (∀ p l, getNum r "settings/moisture_threshold" = some p →
        0 < p → p ≤ 100 → p ≠ s.moist_thresh →
        getNum r "system_thresholds/moist_thresh" = some l →
        0 < l → l ≤ 100 → l ≠ s.moist_thresh →
        (checkThresholdUpdates r s).1.moist_thresh = l)
    ∧ (∀ p l, getNum r "settings/light_threshold" = some p →
        0 < p → p ≤ 100 → p ≠ s.lum_thresh →
        getNum r "system_thresholds/lum_thresh" = some l →
        0 < l → l ≤ 100 → l ≠ s.lum_thresh →
        (checkThresholdUpdates r s).1.lum_thresh = l) := by
  refine ⟨rfl, ?_, ?_, ?_⟩
  · intro p l hp hp1 hp2 hp3 hl hl1 hl2 hl3
    rw [checkThresholdUpdates_temp, hp, hl]
    exact applyThresh_legacy_wins 40 s.temp_thresh p l hp1 hp2 hp3 hl1 hl2 hl3
  · intro p l hp hp1 hp2 hp3 hl hl1 hl2 hl3
    rw [checkThresholdUpdates_moist, hp, hl]
    exact applyThresh_legacy_wins 100 s.moist_thresh p l hp1 hp2 hp3 hl1 hl2 hl3
  · intro p l hp hp1 hp2 hp3 hl hl1 hl2 hl3
    rw [checkThresholdUpdates_lum, hp, hl]
    exact applyThresh_legacy_wins 100 s.lum_thresh p l hp1 hp2 hp3 hl1 hl2 hl3

/-- Witness for C8: both namespaces carry valid, changed candidates
(35 then 25 against current 31) and the refresh ends on the legacy 25. -/
theorem threshold_poll_order_legacy_wins_witness :
    (checkThresholdUpdates remoteBothThresh initState).1.temp_thresh = 25 :=
  (threshold_poll_order_legacy_wins remoteBothThresh initState).2.1 35 25
    rfl (by decide) (by decide) (by decide) rfl (by decide) (by decide) (by decide)

/-! ### C6 — sensor last-known-good caching -/

/-- The cached temperature after `readSensors`: a valid read replaces
it, a NaN read leaves it. -/
theorem readSensors_temperature (inp : DhtSample) (s : DeviceState) :
    (readSensors inp s).temperature =
      match inp.newTemp with
      | .nan => s.temperature
      | .val q => .val q := by
  unfold readSensors
  cases inp.newTemp <;> cases inp.newHumidity <;> simp

/-- The cached humidity after `readSensors`: a valid read replaces it,
a NaN read leaves it. -/
theorem readSensors_humidity (inp : DhtSample) (s : DeviceState) :
    (readSensors inp s).humidity =
      match inp.newHumidity with
      | .nan => s.humidity
      | .val q => .val q := by
  unfold readSensors
  cases inp.newTemp <;> cases inp.newHumidity <;> simp

/-- One sensing step keeps the cached temperature out of NaN. -/
theorem readSensors_temp_not_nan (inp : DhtSample) (s : DeviceState)
    (h : s.temperature.isnan = false) :
    (readSensors inp s).temperature.isnan = false := by
  rw [readSensors_temperature]
  cases inp.newTemp
  · exact h
  · rfl

/-- One sensing step keeps the cached humidity out of NaN. -/
theorem readSensors_hum_not_nan (inp : DhtSample) (s : DeviceState)
    (h : s.humidity.isnan = false) :
    (readSensors inp s).humidity.isnan = false := by
  rw [readSensors_humidity]
  cases inp.newHumidity
  · exact h
  · rfl

/-- C6: an invalid (NaN) temperature or humidity read leaves the
corresponding cached field unchanged, and consequently, once a cached
field holds a valid (non-NaN) value, it stays valid under every
sequence of further sensing cycles. -/
theorem sensor_last_known_good (inp : DhtSample) (s : DeviceState)
    (inps : List DhtSample) :
    (inp.newTemp.isnan = true → (readSensors inp s).temperature = s.temperature)
    ∧ (inp.newHumidity.isnan = true → (readSensors inp s).humidity = s.humidity)
    ∧ (s.temperature.isnan = false →
        (List.foldl (fun st i => readSensors i st) s inps).temperature.isnan = false)
    ∧ (s.humidity.isnan = false →
        (List.foldl (fun st i => readSensors i st) s inps).humidity.isnan = false) := by
  refine ⟨?_, ?_, ?_, ?_⟩
  · intro h
    rw [readSensors_temperature]
    cases hc : inp.newTemp
    · rfl
    · rw [hc] at h; exact absurd h (by simp [FloatV.isnan])
  · intro h
    rw [readSensors_humidity]
    cases hc : inp.newHumidity
    · rfl
    · rw [hc] at h; exact absurd h (by simp [FloatV.isnan])
  · intro h
    induction inps generalizing s with
    | nil => exact h
    | cons i rest ih =>
      exact ih (readSensors i s) (readSensors_temp_not_nan i s h)
  · intro h
    induction inps generalizing s with
    | nil => exact h
    | cons i rest ih =>
      exact ih (readSensors i s) (readSensors_hum_not_nan i s h)

/-- Witness for C6: a faulting DHT cycle leaves the boot-time caches,
and two consecutive faulting cycles keep them valid. -/
theorem sensor_last_known_good_witness :
    (readSensors sampleNaN initState).temperature = initState.temperature
    ∧ (List.foldl (fun st i => readSensors i st) initState
        [sampleNaN, sampleNaN]).humidity.isnan = false :=
  ⟨(sensor_last_known_good sampleNaN initState []).1 rfl,
   (sensor_last_known_good sampleNaN initState [sampleNaN, sampleNaN]).2.2.2 rfl⟩

/-! ### C9 / C4 — mode reconciliation -/

/-- C9: when the remote is unreachable for the whole reconciliation —
the automation-flag read and all three override reads fail — the
control mode and every actuator state are left exactly as they were
(fail-open to last known state). -/
theorem offline_keeps_state (r : Remote) (s : DeviceState)
    (hA : getBool r "settings/automation" = none)
    (hF : getBool r "actuator_status/fan" = none)
    (hP : getBool r "actuator_status/pump" = none)
    (hL : getBool r "actuator_status/light" = none) :
    checkFirebaseCommands r s = s := by
  unfold checkFirebaseCommands
  rw [hA, hF, hP, hL]
  dsimp only
  split_ifs <;> rfl

/-- Witness for C9: a fully dead remote leaves the boot state intact. -/
theorem offline_keeps_state_witness :
    checkFirebaseCommands remoteDown initState = initState :=
  offline_keeps_state remoteDown initState rfl rfl rfl rfl

/-- Projections of `checkFirebaseCommands` when MANUAL with all three
current-generation overrides present. -/
theorem commands_manual (r : Remote) (s : DeviceState) (vf vp vl : Bool)
    (hA : getBool r "settings/automation" = some false)
    (hF : getBool r "actuator_status/fan" = some vf)
    (hP : getBool r "actuator_status/pump" = some vp)
    (hL : getBool r "actuator_status/light" = some vl) :
    (checkFirebaseCommands r s).automation_enabled = false
    ∧ (checkFirebaseCommands r s).fan_status = vf
    ∧ (checkFirebaseCommands r s).pump_status = vp
    ∧ (checkFirebaseCommands r s).light_status = vl
    ∧ (checkFirebaseCommands r s).leds_ON = vl := by
  unfold checkFirebaseCommands
  rw [hA, hF, hP, hL]
  simp

/-- Projections of the legacy-generation `checkFirebaseCommands` when
MANUAL with all three `manual_control/*` overrides present. -/
theorem commands_manual_legacy (r : Remote) (s : DeviceState) (vf vp vl : Bool)
    (hA : getBool r "settings/automation" = some false)
    (hF : getBool r "manual_control/fan" = some vf)
    (hP : getBool r "manual_control/pump" = some vp)
    (hL : getBool r "manual_control/light" = some vl) :
    (checkFirebaseCommandsLegacy r s).automation_enabled = false
    ∧ (checkFirebaseCommandsLegacy r s).fan_status = vf
    ∧ (checkFirebaseCommandsLegacy r s).pump_status = vp
    ∧ (checkFirebaseCommandsLegacy r s).light_status = vl
    ∧ (checkFirebaseCommandsLegacy r s).leds_ON = vl := by
  unfold checkFirebaseCommandsLegacy
  rw [hA, hF, hP, hL]
  simp

/-- C4: in MANUAL mode, boolean overrides present at either schema
generation's paths are applied verbatim to the actuator states — for
the current generation across a whole fast-cadence cycle (where the
threshold evaluation `controlDevices` is skipped entirely, so the
result does not depend on any threshold or sensor value), and for the
legacy generation through its own `checkFirebaseCommands`. -/
theorem manual_override_applied (inp : CycleInput) (s sl : DeviceState)
    (rl : Remote) (vf vp vl wf wp wl : Bool)
    (hA : getBool inp.remote "settings/automation" = some false)
    (hF : getBool inp.remote "actuator_status/fan" = some vf)
    (hP : getBool inp.remote "actuator_status/pump" = some vp)
    (hL : getBool inp.remote "actuator_status/light" = some vl)
    (hA2 : getBool rl "settings/automation" = some false)
    (hF2 : getBool rl "manual_control/fan" = some wf)
    (hP2 : getBool rl "manual_control/pump" = some wp)
    (hL2 : getBool rl "manual_control/light" = some wl) :
    ((fastCycle inp s).fan_status = vf
      ∧ (fastCycle inp s).pump_status = vp
      ∧ (fastCycle inp s).light_status = vl
      ∧ (fastCycle inp s).leds_ON = vl)
    ∧ ((checkFirebaseCommandsLegacy rl sl).fan_status = wf
      ∧ (checkFirebaseCommandsLegacy rl sl).pump_status = wp
      ∧ (checkFirebaseCommandsLegacy rl sl).light_status = wl
      ∧ (checkFirebaseCommandsLegacy rl sl).leds_ON = wl) := by
  constructor
  · unfold fastCycle
    have h := commands_manual inp.remote
      ((checkThresholdUpdates inp.remote (readSensors inp.dht s)).1)
      vf vp vl hA hF hP hL
    rw [if_neg (by rw [h.1]; exact Bool.false_ne_true)]
    exact ⟨h.2.1, h.2.2.1, h.2.2.2.1, h.2.2.2.2⟩
  · have h := commands_manual_legacy rl sl wf wp wl hA2 hF2 hP2 hL2
    exact ⟨h.2.1, h.2.2.1, h.2.2.2.1, h.2.2.2.2⟩

/-- Witness for C4: concrete MANUAL remotes of both generations drive
the actuators to the commanded values. -/
theorem manual_override_applied_witness :
    ((fastCycle { dht := sampleOk, remote := remoteManual } initState).fan_status = true
      ∧ (fastCycle { dht := sampleOk, remote := remoteManual } initState).pump_status = false
      ∧ (fastCycle { dht := sampleOk, remote := remoteManual } initState).light_status = true
      ∧ (fastCycle { dht := sampleOk, remote := remoteManual } initState).leds_ON = true)
    ∧ ((checkFirebaseCommandsLegacy remoteManualLegacy initState).fan_status = false
      ∧ (checkFirebaseCommandsLegacy remoteManualLegacy initState).pump_status = true
      ∧ (checkFirebaseCommandsLegacy remoteManualLegacy initState).light_status = true
      ∧ (checkFirebaseCommandsLegacy remoteManualLegacy initState).leds_ON = true) :=
  manual_override_applied { dht := sampleOk, remote := remoteManual }
    initState initState remoteManualLegacy true false true false true true
    rfl rfl rfl rfl rfl rfl rfl rfl

/-! ### C5 — reboot coordinator -/

/-- A cycle observing `true` at `system/reboot_request` emits the
clear-write, the timestamp write, the 1 s flush delay and the restart,
and execution ends there. -/
theorem runCoordinator_cons_trigger (p : Option RVal × ℕ)
    (rest : List (Option RVal × ℕ)) (hp : rebootTrigger p.1 = true) :
    runCoordinator (p :: rest) =
      [Effect.wBool "system/reboot_request" false,
       Effect.wInt "system/last_reboot" (p.2 : ℤ),
       Effect.delayMs 1000, Effect.restart] := by
  unfold runCoordinator checkSystemRebootRequest
  simp [hp]

/-- A cycle not observing `true` emits nothing and the coordinator
continues with the remaining cycles. -/
theorem runCoordinator_cons_skip (p : Option RVal × ℕ)
    (rest : List (Option RVal × ℕ)) (hp : rebootTrigger p.1 = false) :
    runCoordinator (p :: rest) = runCoordinator rest := by
  obtain ⟨o, t⟩ := p
  simp only [runCoordinator, checkSystemRebootRequest]
  simp only [] at hp
  simp [hp]

/-- C5: in an execution whose reboot-request polls observe `true`
exactly once, the coordinator's whole effect trace is one clear-write
of `false`, one `last_reboot` timestamp write, the fixed 1 s flush
delay, and then the single restart, in that order — so the clear-write
precedes the restart and exactly one restart (and one clear-write)
occurs. -/
theorem reboot_exactly_once (obss : List (Option RVal × ℕ))
    (h : obss.countP (fun p => rebootTrigger p.1) = 1) :
    ∃ t : ℕ,
      runCoordinator obss =
        [Effect.wBool "system/reboot_request" false,
         Effect.wInt "system/last_reboot" (t : ℤ),
         Effect.delayMs 1000, Effect.restart]
      ∧ (runCoordinator obss).countP isRestart = 1
      ∧ (runCoordinator obss).countP isClearWrite = 1 := by
  induction obss with
  | nil => simp at h
  | cons p rest ih =>
    rw [List.countP_cons] at h
    by_cases hp : rebootTrigger p.1
    · refine ⟨p.2, runCoordinator_cons_trigger p rest hp, ?_, ?_⟩ <;>
        rw [runCoordinator_cons_trigger p rest hp] <;> rfl
    · rw [if_neg (by simpa using hp), Nat.add_zero] at h
      rw [runCoordinator_cons_skip p rest (by simpa using hp)]
      exact ih h

/-- Witness for C5: a three-cycle execution whose middle poll observes
`true` produces exactly the four-effect reboot trace. -/
theorem reboot_exactly_once_witness :
    ∃ t : ℕ,
      runCoordinator [(none, 1), (some (RVal.b true), 5), (some (RVal.b false), 9)] =
        [Effect.wBool "system/reboot_request" false,
         Effect.wInt "system/last_reboot" (t : ℤ),
         Effect.delayMs 1000, Effect.restart]
      ∧ (runCoordinator [(none, 1), (some (RVal.b true), 5),
          (some (RVal.b false), 9)]).countP isRestart = 1
      ∧ (runCoordinator [(none, 1), (some (RVal.b true), 5),
          (some (RVal.b false), 9)]).countP isClearWrite = 1 :=
  reboot_exactly_once [(none, 1), (some (RVal.b true), 5), (some (RVal.b false), 9)]
    (by decide)

/-! ### C7 — history record keys -/

/-- The write paths of a publish call — including the five
history-record paths `history/<historyKey now>/...` — depend only on
the clock tick, never on the state being published: two publish calls
within the same millisecond tick target exactly the same paths, so the
second call overwrites the first's history record instead of getting a
distinct key; keys can differ only across different ticks. -/
theorem publish_paths_depend_only_on_tick (t : ℕ) (s1 s2 : DeviceState) :
    (sendToFirebase t s1).filterMap Effect.writePath =
      (sendToFirebase t s2).filterMap Effect.writePath := rfl

/-- C7 counterexample: two distinct back-to-back publish calls in the
same clock tick (1000) write to identical — hence non-distinct — paths,
among them the history record keyed by `historyKey 1000`; this refutes
per-call history-key uniqueness within one tick. -/
theorem history_key_collision_cex :
    (sendToFirebase 1000 initState).filterMap Effect.writePath =
      (sendToFirebase 1000 altState).filterMap Effect.writePath
    ∧ sendToFirebase 1000 initState ≠ sendToFirebase 1000 altState
    ∧ Effect.wInt ("history/" ++ historyKey 1000 ++ "/timestamp") 1000 ∈
        sendToFirebase 1000 initState :=
  ⟨rfl, by decide, by simp [sendToFirebase]⟩

/-! ### C10 — the light latch mirrors the reported light status -/

/-- `readSensors` never touches the light latch or the light status. -/
theorem readSensors_keeps_flags (inp : DhtSample) (s : DeviceState) :
    (readSensors inp s).leds_ON = s.leds_ON
    ∧ (readSensors inp s).light_status = s.light_status := by
  unfold readSensors
  cases inp.newTemp <;> cases inp.newHumidity <;> simp

/-- The threshold refresh never touches the light latch or the light
status. -/
theorem checkThresholdUpdates_keeps_flags (r : Remote) (s : DeviceState) :
    (checkThresholdUpdates r s).1.leds_ON = s.leds_ON
    ∧ (checkThresholdUpdates r s).1.light_status = s.light_status :=
  ⟨rfl, rfl⟩

/-- `controlDevices` keeps the latch equal to the reported status. -/
theorem controlDevices_keeps_mirror (s : DeviceState)
    (h : s.leds_ON = s.light_status) :
    (controlDevices s).leds_ON = (controlDevices s).light_status := by
  rw [controlDevices_leds, controlDevices_light_stat]
  split_ifs <;> simp_all

/-- `checkFirebaseCommands` keeps the latch equal to the reported
status: the light override writes both, nothing else touches either. -/
theorem checkFirebaseCommands_keeps_mirror (r : Remote) (s : DeviceState)
    (h : s.leds_ON = s.light_status) :
    (checkFirebaseCommands r s).leds_ON =
      (checkFirebaseCommands r s).light_status := by
  unfold checkFirebaseCommands
  rcases getBool r "settings/automation" with _ | v <;>
    dsimp only <;>
    split_ifs <;>
    rcases getBool r "actuator_status/fan" with _ | vf <;>
    rcases getBool r "actuator_status/pump" with _ | vp <;>
    rcases getBool r "actuator_status/light" with _ | vl <;>
    simp_all

/-- A whole fast-cadence cycle keeps the latch equal to the reported
status. -/
theorem fastCycle_keeps_mirror (inp : CycleInput) (s : DeviceState)
    (h : s.leds_ON = s.light_status) :
    (fastCycle inp s).leds_ON = (fastCycle inp s).light_status := by
  unfold fastCycle
  have h1 : (readSensors inp.dht s).leds_ON =
      (readSensors inp.dht s).light_status := by
    rw [(readSensors_keeps_flags inp.dht s).1,
      (readSensors_keeps_flags inp.dht s).2]
    exact h
  have h2 : ((checkThresholdUpdates inp.remote (readSensors inp.dht s)).1).leds_ON =
      ((checkThresholdUpdates inp.remote (readSensors inp.dht s)).1).light_status := by
    rw [(checkThresholdUpdates_keeps_flags inp.remote _).1,
      (checkThresholdUpdates_keeps_flags inp.remote _).2]
    exact h1
  have h3 := checkFirebaseCommands_keeps_mirror inp.remote _ h2
  dsimp only
  split_ifs
  · exact controlDevices_keeps_mirror _ h3
  · exact h3

/-- C10: `leds_ON = light_status` is an invariant — it holds at boot,
every operation that can modify either flag (automatic light control
and the manual light override) preserves it, and therefore it holds
after every sequence of loop cycles. -/
theorem light_latch_mirrors_status :
    initState.leds_ON = initState.light_status
    ∧ (∀ s : DeviceState, s.leds_ON = s.light_status →
        ((controlDevices s).leds_ON = (controlDevices s).light_status
          ∧ (∀ r : Remote, (checkFirebaseCommands r s).leds_ON =
              (checkFirebaseCommands r s).light_status)
          ∧ (∀ inp : CycleInput, (fastCycle inp s).leds_ON =
              (fastCycle inp s).light_status)))
    ∧ (∀ inps : List CycleInput,
        (runCycles inps).leds_ON = (runCycles inps).light_status) := by
  refine ⟨rfl, fun s h => ⟨controlDevices_keeps_mirror s h,
    fun r => checkFirebaseCommands_keeps_mirror r s h,
    fun inp => fastCycle_keeps_mirror inp s h⟩, ?_⟩
  intro inps
  have aux : ∀ (l : List CycleInput) (s : DeviceState),
      s.leds_ON = s.light_status →
      (List.foldl (fun st i => fastCycle i st) s l).leds_ON =
        (List.foldl (fun st i => fastCycle i st) s l).light_status := by
    intro l
    induction l with
    | nil => exact fun s h => h
    | cons i rest ih => exact fun s h => ih _ (fastCycle_keeps_mirror i s h)
  exact aux inps initState rfl

/-- Witness for C10: the implication conjunct applied at the boot
state. -/
theorem light_latch_mirrors_status_witness :
    (controlDevices initState).leds_ON = (controlDevices initState).light_status :=
  (light_latch_mirrors_status.2.1 initState rfl).1

end Greenhouse
